import Mathlib

/-!
Verification of the CRM endpoint service (app.py): a shallow embedding of
the Zoho token cache, the generic CRM fetch helper, and the pure JSON
transformations used by the HTTP handlers, together with theorems settling
the specification claims about them.
-/

set_option maxHeartbeats 1000000

/-- A JSON value as produced by response.json() and manipulated by the
handlers: objects are ordered association lists (Python 3.7+ dicts preserve
insertion order), numbers are modelled as integers (no claim depends on
fractional values). -/
inductive Json where
  | null : Json
  | bool (b : Bool) : Json
  | num (n : Int) : Json
  | str (s : String) : Json
  | arr (items : List Json) : Json
  | obj (fields : List (String × Json)) : Json

mutual

/-- Embedding of convert_arrays_to_list (app.py lines 37-43): recurse into
dicts and lists, rebuild them entry by entry, and return every other value
unchanged. The dict and list comprehensions of the Python body are the two
mutual helpers below. -/
def convert_arrays_to_list : Json → Json
  | Json.obj fields => Json.obj (convert_fields fields)
  | Json.arr items => Json.arr (convert_items items)
  | data => data

/-- The list comprehension of convert_arrays_to_list. -/
def convert_items : List Json → List Json
  | [] => []
  | item :: rest => convert_arrays_to_list item :: convert_items rest

/-- The dict comprehension of convert_arrays_to_list. -/
def convert_fields : List (String × Json) → List (String × Json)
  | [] => []
  | (k, v) :: rest => (k, convert_arrays_to_list v) :: convert_fields rest

end

/-- Python truthiness of an Optional[str] slot: None and the empty string
are falsy, every other string is truthy. -/
def pyTruthyOptStr : Option String → Bool
  | none => false
  | some s => !(s == "")

/-- Python str() of an Optional[str] value as interpolated by an f-string:
None prints as the four letters None. -/
def pyStrOptStr : Option String → String
  | none => "None"
  | some s => s

/-- The process-wide zoho_access_token_cache dict (app.py lines 28-31).
Timestamps are integers (seconds); datetime objects are always truthy when
not None, so the truthiness test on expires_at is isSome. -/
structure TokenCache where
  token : Option String
  expires_at : Option Int
deriving DecidableEq

/-- The cache created at startup: both slots None. -/
def initial_token_cache : TokenCache := { token := none, expires_at := none }

/-- The parsed outcome of the POST to the token endpoint: HTTP status,
response body text, and the two fields the code reads from response.json()
(each None when absent from the JSON). -/
structure TokenResponse where
  status_code : Nat
  text : String
  access_token : Option String
  expires_in : Option Int
deriving DecidableEq

/-- The typed errors of the service, per the error-kind design: a failed
token refresh and a failed CRM data call. In the code both are raised as
a plain Exception whose message embeds the response body; the constructor
distinguishes the two raise sites. -/
inductive AppError where
  | authProviderError (body : String)
  | crmRequestError (status : Nat) (body : String)
deriving DecidableEq

/-- The cache-hit test of get_zoho_access_token (app.py lines 48-49): the
stored token must be truthy, the stored expiry must be truthy (a datetime
is truthy whenever it is not None), and now must be strictly before it. -/
def token_cache_hit (cache : TokenCache) (now : Int) : Bool :=
  pyTruthyOptStr cache.token && cache.expires_at.isSome &&
    decide (now < cache.expires_at.getD 0)

/-- Embedding of get_zoho_access_token (app.py lines 45-72). The network
is modelled by passing in the response the token endpoint would give to a
refresh POST; the result is the returned value (the code can return None,
since data.get with no default can), the cache after the call, and how
many network calls were made (0 on a cache hit, 1 otherwise). On a
non-200 status the code raises, leaving the cache untouched; on a 200 it
stores access_token and now plus (expires_in default 3600) minus 60. -/
def get_zoho_access_token (cache : TokenCache) (now : Int) (resp : TokenResponse) :
    Except AppError (Option String) × TokenCache × Nat :=
  if token_cache_hit cache now then
    (Except.ok cache.token, cache, 0)
  else if resp.status_code != 200 then
    (Except.error (AppError.authProviderError resp.text), cache, 1)
  else
    let access_token := resp.access_token
    let expires_in := resp.expires_in.getD 3600
    (Except.ok access_token,
     { token := access_token, expires_at := some (now + (expires_in - 60)) }, 1)

/-- The fixed CRM data base URL of fetch_from_zoho (app.py line 77). -/
def zoho_base_url : String := "https://www.zohoapis.com/crm/v2"

/-- URL selection of fetch_from_zoho (app.py lines 82-88): record_id
truthy takes the direct resource URL, else criteria truthy takes the
search URL, else the collection URL. -/
def build_zoho_url (module_name : String) (record_id criteria : Option String) : String :=
  if pyTruthyOptStr record_id then
    zoho_base_url ++ "/" ++ module_name ++ "/" ++ record_id.getD ""
  else if pyTruthyOptStr criteria then
    zoho_base_url ++ "/" ++ module_name ++ "/search"
  else
    zoho_base_url ++ "/" ++ module_name

/-- Query-parameter dict of fetch_from_zoho (app.py lines 90-94): criteria
and fields each added verbatim when truthy; record_id plays no part. -/
def build_zoho_params (criteria fields : Option String) : List (String × String) :=
  (if pyTruthyOptStr criteria then [("criteria", criteria.getD "")] else []) ++
  (if pyTruthyOptStr fields then [("fields", fields.getD "")] else [])

/-- The headers dict of fetch_from_zoho (app.py lines 78-80). -/
def build_zoho_headers (access_token : Option String) : List (String × String) :=
  [("Authorization", "Zoho-oauthtoken " ++ pyStrOptStr access_token)]

/-- The full GET request fetch_from_zoho would issue. -/
structure ZohoRequest where
  url : String
  headers : List (String × String)
  params : List (String × String)
deriving DecidableEq

/-- The request constructed by fetch_from_zoho before the GET. -/
def build_zoho_request (module_name : String) (record_id criteria fields : Option String)
    (access_token : Option String) : ZohoRequest :=
  { url := build_zoho_url module_name record_id criteria
  , headers := build_zoho_headers access_token
  , params := build_zoho_params criteria fields }

/-- A CRM data response: status, body text, and the parsed JSON body. -/
structure CrmResponse where
  status_code : Nat
  text : String
  json : Json

/-- Embedding of fetch_from_zoho (app.py lines 74-101). The token step
runs first; an exception there propagates unchanged (the except clause is
in the callers, not here). Then the GET is issued (its response is passed
in), a non-200 status raises with the response text, and a 200 returns
the parsed JSON. The cache after the call and the GET request actually
issued (none when the token step raised, so no GET happened) are also
returned. -/
def fetch_from_zoho (cache : TokenCache) (now : Int) (token_resp : TokenResponse)
    (crm_resp : CrmResponse) (module_name : String)
    (record_id criteria fields : Option String) :
    Except AppError Json × TokenCache × Option ZohoRequest :=
  match get_zoho_access_token cache now token_resp with
  | (Except.error e, cache2, _) => (Except.error e, cache2, none)
  | (Except.ok access_token, cache2, _) =>
    let req := build_zoho_request module_name record_id criteria fields access_token
    if crm_resp.status_code != 200 then
      (Except.error (AppError.crmRequestError crm_resp.status_code crm_resp.text), cache2, some req)
    else
      (Except.ok crm_resp.json, cache2, some req)

/-- Python dict.get with no default: the value at the first matching key,
or None (here: Option.none) when the key is absent. -/
def dict_get (d : List (String × Json)) (k : String) : Option Json :=
  (d.find? (fun kv => kv.1 == k)).map Prod.snd

/-- Python dict.get with a default value. -/
def dict_get_default (d : List (String × Json)) (k : String) (dflt : Json) : Json :=
  match dict_get d k with
  | some v => v
  | none => dflt

/-- Python truthiness of a JSON value: None, False, 0, the empty string,
the empty list and the empty dict are falsy. -/
def pyTruthy : Json → Bool
  | Json.null => false
  | Json.bool b => b
  | Json.num n => !(n == 0)
  | Json.str s => !(s == "")
  | Json.arr items => !items.isEmpty
  | Json.obj fields => !fields.isEmpty

/-- Python len() of a JSON value: defined for strings, lists and dicts,
a TypeError (none) otherwise. -/
def py_len : Json → Option Nat
  | Json.str s => some s.length
  | Json.arr items => some items.length
  | Json.obj fields => some fields.length
  | _ => none

/-- Embedding of the Python test k.startswith applied to the
one-character dollar marker: true exactly when the first character of k
is the dollar sign (false on the empty string). -/
def starts_with_dollar (k : String) : Bool :=
  match k.data with
  | [] => false
  | c :: _ => c == '$'

/-- Stripping of Zoho system fields from one record (app.py line 211):
the dict comprehension keeps exactly the pairs whose key does not start
with the dollar marker. -/
def clean_sector (sector : List (String × Json)) : List (String × Json) :=
  sector.filter (fun kv => !(starts_with_dollar kv.1))

/-- The cleaning loop over the data array (app.py lines 209-212). -/
def clean_sectors (sectors : List (List (String × Json))) : List (List (String × Json)) :=
  sectors.map clean_sector

/-- What the medical-experts-zoho handler does right after the first
fetch succeeds (app.py lines 194-198): 404, continue with data[0], or a
runtime error that the enclosing except turns into a 500. -/
inductive ExpertLookupOutcome where
  | notFound : ExpertLookupOutcome
  | proceed (medical_expert : Json) : ExpertLookupOutcome
  | crash (msg : String) : ExpertLookupOutcome

/-- Embedding of the data check of get_medical_expert_from_zoho (app.py
lines 194-198): medical_expert_response.get with no default, Python
truthiness with short-circuit or, then len, then data[0]. A truthy value
that is not a list either fails len (int, bool) or makes the handler
crash a step later (a str yields a one-character str whose .get raises, a
dict yields a key string likewise), so every such case is a crash. -/
def check_expert_response (resp : List (String × Json)) : ExpertLookupOutcome :=
  match dict_get resp "data" with
  | none => ExpertLookupOutcome.notFound
  | some d =>
    if !pyTruthy d then ExpertLookupOutcome.notFound
    else match py_len d with
      | none => ExpertLookupOutcome.crash "TypeError: object has no len"
      | some 0 => ExpertLookupOutcome.notFound
      | some (_ + 1) =>
        match d with
        | Json.arr (x :: _) => ExpertLookupOutcome.proceed x
        | _ => ExpertLookupOutcome.crash "indexing a non-list data value"

/-- The HTTP status the handler responds with at this stage: 404 with the
not-found error body, 500 from the except clause on a crash, and no
response yet when the handler proceeds to the sectors fetch. -/
def expert_outcome_status : ExpertLookupOutcome → Option Nat
  | ExpertLookupOutcome.notFound => some 404
  | ExpertLookupOutcome.crash _ => some 500
  | ExpertLookupOutcome.proceed _ => none

/-- Python iteration over a JSON value: a list yields its items, a str
yields its characters as one-character strings, a dict yields its keys,
anything else raises TypeError. -/
def py_iterate : Json → Option (List Json)
  | Json.arr items => some items
  | Json.str s => some (s.data.map (fun c => Json.str (String.mk [c])))
  | Json.obj fields => some (fields.map (fun kv => Json.str kv.1))
  | _ => none

/-- Python .get on an arbitrary JSON value: only dicts have .get, so any
other receiver raises AttributeError (none). -/
def json_obj_get (j : Json) (k : String) : Option (Option Json) :=
  match j with
  | Json.obj fields => some (dict_get fields k)
  | _ => none

/-- Projection of one modules entry (app.py lines 257-262): m.get on each
of the four field names, None (Json.null) when absent. -/
def project_zoho_module (m : List (String × Json)) : List (String × Json) :=
  [("api_name", dict_get_default m "api_name" Json.null),
   ("module_name", dict_get_default m "module_name" Json.null),
   ("plural_label", dict_get_default m "plural_label" Json.null),
   ("singular_label", dict_get_default m "singular_label" Json.null)]

/-- The list comprehension of list_zoho_modules (app.py lines 256-264)
over the already-iterated modules value: each entry must be a dict (else
m.get raises AttributeError, modelled as none) and is projected down to
the four fields. -/
def project_modules : List Json → Option (List (List (String × Json)))
  | [] => some []
  | Json.obj fields :: rest =>
    (project_modules rest).map (fun out => project_zoho_module fields :: out)
  | _ :: _ => none

/-- The pure tail of list_zoho_modules (app.py lines 253-264): take the
modules key of the parsed settings document (default the empty list),
iterate it, and project every entry; none models a raised exception that
the except clause turns into a 500. -/
def list_zoho_modules_projection (modules_data : List (String × Json)) :
    Option (List (List (String × Json))) :=
  match py_iterate (dict_get_default modules_data "modules" (Json.arr [])) with
  | none => none
  | some ms => project_modules ms

/-! Helper lemmas, shared by the claim theorems below. -/

mutual

theorem convert_arrays_to_list_eq_self : (j : Json) → convert_arrays_to_list j = j
  | Json.null => rfl
  | Json.bool _ => rfl
  | Json.num _ => rfl
  | Json.str _ => rfl
  | Json.arr items => congrArg Json.arr (convert_items_eq_self items)
  | Json.obj fields => congrArg Json.obj (convert_fields_eq_self fields)

theorem convert_items_eq_self : (xs : List Json) → convert_items xs = xs
  | [] => rfl
  | x :: xs => by
    rw [convert_items, convert_arrays_to_list_eq_self x, convert_items_eq_self xs]

theorem convert_fields_eq_self : (fs : List (String × Json)) → convert_fields fs = fs
  | [] => rfl
  | (k, v) :: fs => by
    rw [convert_fields, convert_arrays_to_list_eq_self v, convert_fields_eq_self fs]

end

theorem project_modules_map_obj (ms : List (List (String × Json))) :
    project_modules (ms.map Json.obj) = some (ms.map project_zoho_module) := by
  induction ms with
  | nil => rfl
  | cons m rest ih => simp [project_modules, ih]

/-! The claim theorems. -/

/-- C9: convert_arrays_to_list is the identity on every JSON-like value,
so the per-sector formatting step of the database endpoint (app.py lines
150-153), which maps it over the sector rows, changes nothing. -/
theorem c9_convert_arrays_to_list_identity :
    (∀ j : Json, convert_arrays_to_list j = j) ∧
    (∀ sectors : List Json, sectors.map convert_arrays_to_list = sectors) := by
  refine ⟨convert_arrays_to_list_eq_self, fun sectors => ?_⟩
  rw [funext convert_arrays_to_list_eq_self]
  exact List.map_id sectors

/-- C6: cleaning a record keeps exactly the pairs whose key does not
start with the dollar marker, each pair (hence each value, nested
structure included) unchanged and in order; cleaning is idempotent, and a
record with no dollar-prefixed key is returned unchanged. -/
theorem c6_clean_sector_spec (r : List (String × Json)) :
    (∀ kv : String × Json, kv ∈ clean_sector r ↔ kv ∈ r ∧ starts_with_dollar kv.1 = false) ∧
    List.Sublist (clean_sector r) r ∧
    clean_sector (clean_sector r) = clean_sector r ∧
    ((∀ kv ∈ r, starts_with_dollar kv.1 = false) → clean_sector r = r) := by
  refine ⟨fun kv => ?_, List.filter_sublist r, ?_, fun h => ?_⟩
  · simp [clean_sector, List.mem_filter]
  · simp [clean_sector, List.filter_filter]
  · rw [clean_sector, List.filter_eq_self]
    intro a ha
    simp [h a ha]

/-- C6 witness: a record with no dollar-prefixed key is unchanged. -/
theorem c6_clean_sector_witness :
    clean_sector [("Name", Json.str "X")] = [("Name", Json.str "X")] :=
  (c6_clean_sector_spec [("Name", Json.str "X")]).2.2.2 (by decide)

/-- C8: when the first CRM search response has no data key or an empty
data array, the zoho handler takes the distinct not-found branch and
answers HTTP 404, never a success payload. -/
theorem c8_empty_data_is_not_found (resp : List (String × Json))
    (h : dict_get resp "data" = none ∨ dict_get resp "data" = some (Json.arr [])) :
    check_expert_response resp = ExpertLookupOutcome.notFound ∧
    expert_outcome_status (check_expert_response resp) = some 404 := by
  have hnf : check_expert_response resp = ExpertLookupOutcome.notFound := by
    rcases h with h | h <;> simp [check_expert_response, h, pyTruthy]
  exact ⟨hnf, by rw [hnf]; rfl⟩

/-- C8 witness: an empty data array yields the 404 branch. -/
theorem c8_empty_data_witness :
    check_expert_response [("data", Json.arr [])] = ExpertLookupOutcome.notFound ∧
    expert_outcome_status (check_expert_response [("data", Json.arr [])]) = some 404 :=
  c8_empty_data_is_not_found [("data", Json.arr [])] (Or.inr rfl)

/-- C1 counterexample: the claim quantifies over every cache state with a
stored token and a future expiry, but the code tests Python truthiness,
so the stored empty-string token with expiry 100 at time 0 is not served
from the cache: a network call is made (count 1, not 0) and the fresh
token, not the stored one, is returned. -/
theorem c1_counterexample :
    (0 : Int) < 100 ∧
    get_zoho_access_token { token := some "", expires_at := some 100 } 0
        { status_code := 200, text := "ok", access_token := some "fresh", expires_in := some 3600 } =
      (Except.ok (some "fresh"), { token := some "fresh", expires_at := some 3540 }, 1) :=
  ⟨by decide, by rfl⟩

/-- C1 (amended): for every cache state in which a non-empty token is
stored together with an expiry, and the current time is strictly before
that expiry, get_zoho_access_token returns the cached token immediately,
leaves the cache unchanged, and makes no network call. -/
theorem c1_cache_hit_returns_cached_token (cache : TokenCache) (now : Int)
    (resp : TokenResponse) (t : String) (e : Int)
    (htok : cache.token = some t) (hne : t ≠ "")
    (hexp : cache.expires_at = some e) (hnow : now < e) :
    get_zoho_access_token cache now resp = (Except.ok (some t), cache, 0) := by
  have hhit : token_cache_hit cache now = true := by
    simp [token_cache_hit, pyTruthyOptStr, htok, hexp, hne, hnow]
  simp [get_zoho_access_token, hhit, htok]

/-- C1 witness: a cached non-empty token with a future expiry is returned
with no network call, whatever the token endpoint would have said. -/
theorem c1_cache_hit_witness :
    get_zoho_access_token { token := some "tok", expires_at := some 100 } 50
        { status_code := 401, text := "err", access_token := none, expires_in := none } =
      (Except.ok (some "tok"), { token := some "tok", expires_at := some 100 }, 0) :=
  c1_cache_hit_returns_cached_token _ 50 _ "tok" 100 rfl (by decide) rfl (by decide)

/-- C2: with an absent or expired cached token, get_zoho_access_token
makes exactly one refresh call, and when that call succeeds with status
200 it returns the access_token field and stores it with expiry now plus
expires_in (default 3600) minus 60. -/
theorem c2_refresh_on_absent_or_expired (cache : TokenCache) (now : Int)
    (resp : TokenResponse)
    (h : cache.token = none ∨ ∃ e, cache.expires_at = some e ∧ e ≤ now) :
    (get_zoho_access_token cache now resp).2.2 = 1 ∧
    (resp.status_code = 200 →
      (get_zoho_access_token cache now resp).1 = Except.ok resp.access_token ∧
      (get_zoho_access_token cache now resp).2.1 =
        { token := resp.access_token,
          expires_at := some (now + (resp.expires_in.getD 3600 - 60)) }) := by
  have hmiss : token_cache_hit cache now = false := by
    rcases h with h | ⟨e, he, hle⟩
    · simp [token_cache_hit, pyTruthyOptStr, h]
    · have : decide (now < e) = false := by simp [not_lt.mpr hle]
      simp [token_cache_hit, he, this]
  refine ⟨?_, fun h200 => ?_⟩
  · by_cases hs : resp.status_code = 200 <;>
      simp [get_zoho_access_token, hmiss, hs]
  · simp [get_zoho_access_token, hmiss, h200]

/-- C2 witness: from the empty startup cache, one refresh call is made
and a 200 response with a token and lifetime 3600 is stored with expiry
3540 and returned. -/
theorem c2_refresh_witness :
    (get_zoho_access_token initial_token_cache 0
        { status_code := 200, text := "ok", access_token := some "tok", expires_in := some 3600 }).2.2 = 1 ∧
    ((200 : Nat) = 200 →
      (get_zoho_access_token initial_token_cache 0
          { status_code := 200, text := "ok", access_token := some "tok", expires_in := some 3600 }).1 =
        Except.ok (some "tok") ∧
      (get_zoho_access_token initial_token_cache 0
          { status_code := 200, text := "ok", access_token := some "tok", expires_in := some 3600 }).2.1 =
        { token := some "tok", expires_at := some (0 + (3600 - 60)) }) :=
  c2_refresh_on_absent_or_expired initial_token_cache 0
    { status_code := 200, text := "ok", access_token := some "tok", expires_in := some 3600 }
    (Or.inl rfl)

/-- C3: when the cache test fails and the token endpoint answers with a
non-2xx status (which is in particular not 200), get_zoho_access_token
fails with authProviderError carrying the response body and the cache is
exactly what it was before the call. -/
theorem c3_refresh_failure_leaves_cache (cache : TokenCache) (now : Int)
    (resp : TokenResponse) (hmiss : token_cache_hit cache now = false)
    (hstatus : resp.status_code < 200 ∨ 300 ≤ resp.status_code) :
    get_zoho_access_token cache now resp =
      (Except.error (AppError.authProviderError resp.text), cache, 1) := by
  have h200 : (resp.status_code != 200) = true := by
    rcases hstatus with h | h <;> simp <;> omega
  simp [get_zoho_access_token, hmiss, h200]

/-- C3 witness: a 401 refresh response from the empty startup cache fails
with the response body and stores nothing. -/
theorem c3_refresh_failure_witness :
    get_zoho_access_token initial_token_cache 0
        { status_code := 401, text := "unauthorized", access_token := none, expires_in := none } =
      (Except.error (AppError.authProviderError "unauthorized"), initial_token_cache, 1) :=
  c3_refresh_failure_leaves_cache initial_token_cache 0
    { status_code := 401, text := "unauthorized", access_token := none, expires_in := none }
    rfl (Or.inr (by decide))

/-- C10: a 200 token response whose JSON has no access_token field makes
get_zoho_access_token return None without raising and store None as the
token; any later call finds the stored None falsy, so it never serves it
from the cache and always performs a fresh network call. -/
theorem c10_missing_access_token (cache : TokenCache) (now : Int)
    (resp : TokenResponse) (hmiss : token_cache_hit cache now = false)
    (h200 : resp.status_code = 200) (hnone : resp.access_token = none) :
    (get_zoho_access_token cache now resp).1 = Except.ok none ∧
    (get_zoho_access_token cache now resp).2.1.token = none ∧
    ∀ (now2 : Int) (resp2 : TokenResponse),
      (get_zoho_access_token (get_zoho_access_token cache now resp).2.1 now2 resp2).2.2 = 1 := by
  have hres :
      get_zoho_access_token cache now resp =
        (Except.ok none,
         { token := none, expires_at := some (now + (resp.expires_in.getD 3600 - 60)) }, 1) := by
    simp [get_zoho_access_token, hmiss, h200, hnone]
  refine ⟨by rw [hres], by rw [hres], fun now2 resp2 => ?_⟩
  rw [hres]
  have hmiss2 :
      token_cache_hit
        { token := none, expires_at := some (now + (resp.expires_in.getD 3600 - 60)) } now2 = false := by
    simp [token_cache_hit, pyTruthyOptStr]
  by_cases hs : resp2.status_code = 200 <;>
    simp [get_zoho_access_token, hmiss2, hs]

/-- C10 witness: the empty startup cache, a 200 response with no
access_token, then a second call at time 1 against a failing endpoint:
None is returned and stored, and the second call hits the network. -/
theorem c10_missing_access_token_witness :
    (get_zoho_access_token initial_token_cache 0
        { status_code := 200, text := "ok", access_token := none, expires_in := some 3600 }).1 =
      Except.ok none ∧
    (get_zoho_access_token initial_token_cache 0
        { status_code := 200, text := "ok", access_token := none, expires_in := some 3600 }).2.1.token =
      none ∧
    (get_zoho_access_token
        (get_zoho_access_token initial_token_cache 0
          { status_code := 200, text := "ok", access_token := none, expires_in := some 3600 }).2.1 1
        { status_code := 500, text := "boom", access_token := none, expires_in := none }).2.2 = 1 := by
  have h :=
    c10_missing_access_token initial_token_cache 0
      { status_code := 200, text := "ok", access_token := none, expires_in := some 3600 }
      rfl rfl rfl
  exact ⟨h.1, h.2.1,
    h.2.2 1 { status_code := 500, text := "boom", access_token := none, expires_in := none }⟩

/-- C4 counterexample: the CRM answering 201, a 2xx status, still makes
fetch_from_zoho raise crmRequestError instead of returning the parsed
JSON, because the code tests status against exactly 200. -/
theorem c4_counterexample :
    ((200 : Nat) ≤ 201 ∧ (201 : Nat) < 300) ∧
    (fetch_from_zoho initial_token_cache 0
        { status_code := 200, text := "ok", access_token := some "tok", expires_in := some 3600 }
        { status_code := 201, text := "created-body", json := Json.null }
        "Modules" none none none).1 =
      Except.error (AppError.crmRequestError 201 "created-body") :=
  ⟨⟨by decide, by decide⟩, rfl⟩

/-- C4 (amended): an AuthProviderError of the token step propagates out
of fetch_from_zoho unchanged; when the token step succeeds, the call
fails with crmRequestError carrying the CRM status and body exactly when
the CRM status is not 200 (so also on 2xx statuses other than 200), and
returns the parsed JSON document exactly when the status is 200. -/
theorem c4_fetch_error_behaviour (cache : TokenCache) (now : Int)
    (token_resp : TokenResponse) (crm_resp : CrmResponse) (module_name : String)
    (record_id criteria fields : Option String) :
    (∀ e, (get_zoho_access_token cache now token_resp).1 = Except.error e →
      (fetch_from_zoho cache now token_resp crm_resp module_name record_id criteria fields).1 =
        Except.error e) ∧
    (∀ tok, (get_zoho_access_token cache now token_resp).1 = Except.ok tok →
      ((fetch_from_zoho cache now token_resp crm_resp module_name record_id criteria fields).1 =
          Except.error (AppError.crmRequestError crm_resp.status_code crm_resp.text) ↔
        crm_resp.status_code ≠ 200) ∧
      ((fetch_from_zoho cache now token_resp crm_resp module_name record_id criteria fields).1 =
          Except.ok crm_resp.json ↔
        crm_resp.status_code = 200)) := by
  rcases hg : get_zoho_access_token cache now token_resp with ⟨r, cache2, n⟩
  constructor
  · intro e he
    simp only at he
    subst he
    simp [fetch_from_zoho, hg]
  · intro tok htok
    simp only at htok
    subst htok
    by_cases hs : crm_resp.status_code = 200 <;>
      simp [fetch_from_zoho, hg, hs]

/-- C4 witness: with the token step succeeding, a 404 from the CRM
surfaces as crmRequestError carrying status and body. -/
theorem c4_fetch_error_witness :
    (fetch_from_zoho initial_token_cache 0
        { status_code := 200, text := "ok", access_token := some "tok", expires_in := some 3600 }
        { status_code := 404, text := "not found", json := Json.null }
        "Modules" none none none).1 =
      Except.error (AppError.crmRequestError 404 "not found") :=
  ((c4_fetch_error_behaviour initial_token_cache 0
      { status_code := 200, text := "ok", access_token := some "tok", expires_in := some 3600 }
      { status_code := 404, text := "not found", json := Json.null }
      "Modules" none none none).2 (some "tok") rfl).1.mpr (by decide)

/-- C5: URL selection follows the mutually exclusive precedence of the
code, reading given as a meaningfully set (non-empty) optional argument:
a given record_id yields the direct resource URL, else a given criteria
yields the search URL, else the collection URL; criteria and fields each
appear verbatim in the query-parameter dict exactly when given; and the
query parameters do not depend on record_id (nor on the token), so the
chosen URL never changes them. -/
theorem c5_url_selection (module_name : String) (record_id criteria fields : Option String) :
    (∀ r, record_id = some r → r ≠ "" →
      build_zoho_url module_name record_id criteria =
        zoho_base_url ++ "/" ++ module_name ++ "/" ++ r) ∧
    ((record_id = none ∨ record_id = some "") →
      ∀ c, criteria = some c → c ≠ "" →
      build_zoho_url module_name record_id criteria =
        zoho_base_url ++ "/" ++ module_name ++ "/search") ∧
    ((record_id = none ∨ record_id = some "") → (criteria = none ∨ criteria = some "") →
      build_zoho_url module_name record_id criteria = zoho_base_url ++ "/" ++ module_name) ∧
    (∀ c, criteria = some c → c ≠ "" → ("criteria", c) ∈ build_zoho_params criteria fields) ∧
    (∀ f, fields = some f → f ≠ "" → ("fields", f) ∈ build_zoho_params criteria fields) ∧
    ((criteria = none ∨ criteria = some "") →
      ∀ c, ("criteria", c) ∉ build_zoho_params criteria fields) ∧
    ((fields = none ∨ fields = some "") →
      ∀ f, ("fields", f) ∉ build_zoho_params criteria fields) ∧
    (∀ rid1 rid2 tok1 tok2,
      (build_zoho_request module_name rid1 criteria fields tok1).params =
        (build_zoho_request module_name rid2 criteria fields tok2).params) := by
  refine ⟨?_, ?_, ?_, ?_, ?_, ?_, ?_, fun rid1 rid2 tok1 tok2 => rfl⟩
  · intro r hr hne
    simp [build_zoho_url, pyTruthyOptStr, hr, hne]
  · intro hr c hc hne
    have hrid : pyTruthyOptStr record_id = false := by
      rcases hr with hr | hr <;> simp [pyTruthyOptStr, hr]
    have hcrit : pyTruthyOptStr criteria = true := by
      simp [pyTruthyOptStr, hc, hne]
    simp only [build_zoho_url, hrid, hcrit, Bool.false_eq_true, if_false, if_true]
  · intro hr hc
    have hrid : pyTruthyOptStr record_id = false := by
      rcases hr with hr | hr <;> simp [pyTruthyOptStr, hr]
    have hcrit : pyTruthyOptStr criteria = false := by
      rcases hc with hc | hc <;> simp [pyTruthyOptStr, hc]
    simp only [build_zoho_url, hrid, hcrit, Bool.false_eq_true, if_false]
  · intro c hc hne
    simp [build_zoho_params, pyTruthyOptStr, hc, hne]
  · intro f hf hne
    simp [build_zoho_params, pyTruthyOptStr, hf, hne]
  · intro hc c
    have hcrit : pyTruthyOptStr criteria = false := by
      rcases hc with hc | hc <;> simp [pyTruthyOptStr, hc]
    simp only [build_zoho_params, hcrit, Bool.false_eq_true, if_false, List.nil_append]
    rcases fields with _ | f0
    · simp [pyTruthyOptStr]
    · by_cases hf0 : f0 = "" <;> simp [pyTruthyOptStr, hf0]
  · intro hf f
    have hfld : pyTruthyOptStr fields = false := by
      rcases hf with hf | hf <;> simp [pyTruthyOptStr, hf]
    simp only [build_zoho_params, hfld, Bool.false_eq_true, if_false, List.append_nil]
    rcases criteria with _ | c0
    · simp [pyTruthyOptStr]
    · by_cases hc0 : c0 = "" <;> simp [pyTruthyOptStr, hc0]

/-- C5 witness: a direct-ID fetch of record 123 in module Modules uses
the direct resource URL, and its query dict carries no criteria entry. -/
theorem c5_url_selection_witness :
    build_zoho_url "Modules" (some "123") none =
      zoho_base_url ++ "/" ++ "Modules" ++ "/" ++ "123" ∧
    ¬ ("criteria", "(Name:equals:X)") ∈ build_zoho_params none none :=
  ⟨(c5_url_selection "Modules" (some "123") none none).1 "123" rfl (by decide),
   (c5_url_selection "Modules" (some "123") none none).2.2.2.2.2.1 (Or.inl rfl)
     "(Name:equals:X)"⟩

/-- C7: on a settings document whose modules key holds an array of
objects, the module listing is the array of their projections, one output
entry per input entry in the same order, each consisting of exactly the
four fields api_name, module_name, plural_label and singular_label of the
corresponding input entry (None when absent) and nothing else. -/
theorem c7_module_projection (doc : List (String × Json)) (ms : List (List (String × Json)))
    (h : dict_get doc "modules" = some (Json.arr (ms.map Json.obj))) :
    list_zoho_modules_projection doc = some (ms.map project_zoho_module) ∧
    (ms.map project_zoho_module).length = ms.length ∧
    ∀ (i : Nat) (hi : i < ms.length),
      (ms.map project_zoho_module).get ⟨i, by simpa using hi⟩ =
        [("api_name", dict_get_default (ms.get ⟨i, hi⟩) "api_name" Json.null),
         ("module_name", dict_get_default (ms.get ⟨i, hi⟩) "module_name" Json.null),
         ("plural_label", dict_get_default (ms.get ⟨i, hi⟩) "plural_label" Json.null),
         ("singular_label", dict_get_default (ms.get ⟨i, hi⟩) "singular_label" Json.null)] := by
  refine ⟨?_, by simp, fun i hi => ?_⟩
  · simp [list_zoho_modules_projection, dict_get_default, h, py_iterate,
      project_modules_map_obj]
  · simp [List.get_eq_getElem, List.getElem_map, project_zoho_module]

/-- C7 witness: a one-entry modules array is projected to its four module
fields, the extra field dropped. -/
theorem c7_module_projection_witness :
    list_zoho_modules_projection
        [("modules",
          Json.arr [Json.obj
            [("api_name", Json.str "A"), ("module_name", Json.str "B"),
             ("plural_label", Json.str "Bs"), ("singular_label", Json.str "B"),
             ("extra", Json.str "ignored")]])] =
      some [[("api_name", Json.str "A"), ("module_name", Json.str "B"),
             ("plural_label", Json.str "Bs"), ("singular_label", Json.str "B")]] :=
  (c7_module_projection
      [("modules",
        Json.arr [Json.obj
          [("api_name", Json.str "A"), ("module_name", Json.str "B"),
           ("plural_label", Json.str "Bs"), ("singular_label", Json.str "B"),
           ("extra", Json.str "ignored")]])]
      [[("api_name", Json.str "A"), ("module_name", Json.str "B"),
        ("plural_label", Json.str "Bs"), ("singular_label", Json.str "B"),
        ("extra", Json.str "ignored")]] rfl).1.trans (by rfl)
